import Mathlib

/-!
Shallow embedding of the third-person player/camera controller prototype.

The embedding follows the latest revision of each component in the repository:
`InputManager.js` (the revision keyed on `event.code`, jump trigger set on the
Space keyup), `PlayerController.js`, and the `CameraController` revision built
around `CAMERA_CONFIG` (proportional zoom).  JavaScript numbers are modelled as
real numbers; the DOM event handlers become functions on an `InputState`
record, and each controller's per-frame `update` becomes a state-passing
function.  Quantities owned by the browser (the camera's world-forward
direction read through `getWorldDirection`, pointer-lock status at the moment
of a `mousemove`) enter as per-event parameters.
-/

noncomputable section

namespace TPS

/-! ## Configuration constants (PLAYER_CONFIG / ANIM_NAMES / CAMERA_CONFIG) -/

def WALK_SPEED : ℝ := 3.5

def RUN_SPEED : ℝ := 10.0

def GRAVITY : ℝ := -19.6

def JUMP_HEIGHT : ℝ := 1.8

def ANIM_FADE_DURATION : ℝ := 0.2

def IDLE_NAME : String := "stand"

def WALK_NAME : String := "walk"

def RUN_NAME : String := "run"

def JUMP_NAME : String := "jumpUp"

def FALL_NAME : String := "jumpDown"

/-- `ANIM_NAMES.LAND` is commented out in the source, so `animNames.LAND`
evaluates to `undefined`; we model it as `none`. -/
def LAND_NAME : Option String := none

def PITCH_LIMIT_MIN_Y : ℝ := 2

def PITCH_LIMIT_MAX_Y : ℝ := 8

def ZOOM_MIN : ℝ := 2

def ZOOM_MAX : ℝ := 15

def SENSITIVITY_X : ℝ := 0.003

def SENSITIVITY_Y : ℝ := 0.003

def ZOOM_SENSITIVITY : ℝ := 0.1

/-! ## InputManager -/

/-- The `this.keys` map of `InputManager` (`event.code` keys). -/
structure Keys where
  keyW : Bool
  keyA : Bool
  keyS : Bool
  keyD : Bool
  shiftLeft : Bool
  shiftRight : Bool
  space : Bool
deriving Repr, DecidableEq

/-- The mutable state of `InputManager`. -/
structure InputState where
  keys : Keys
  jumpTriggered : Bool
  mouseDeltaX : ℝ
  mouseDeltaY : ℝ
  zoomDelta : ℝ
  isCanvasActive : Bool
  mouseLeft : Bool
  mouseMiddle : Bool
  mouseRight : Bool

/-- `event.code` values distinguished by the handlers; every code outside the
`keys` map collapses to `other`. -/
inductive KeyCode where
  | keyW
  | keyA
  | keyS
  | keyD
  | shiftLeft
  | shiftRight
  | space
  | other
deriving Repr, DecidableEq

def setKey (k : Keys) (c : KeyCode) (b : Bool) : Keys :=
  match c with
  | KeyCode.keyW => { k with keyW := b }
  | KeyCode.keyA => { k with keyA := b }
  | KeyCode.keyS => { k with keyS := b }
  | KeyCode.keyD => { k with keyD := b }
  | KeyCode.shiftLeft => { k with shiftLeft := b }
  | KeyCode.shiftRight => { k with shiftRight := b }
  | KeyCode.space => { k with space := b }
  | KeyCode.other => k

/-- The `keydown` handler: sets the held-key flag (Space additionally calls
`preventDefault`, which has no state effect). -/
def keydownF (c : KeyCode) (i : InputState) : InputState :=
  { i with keys := setKey i.keys c true }

/-- The `keyup` handler: clears the held-key flag and sets the jump trigger on
the Space key release edge. -/
def keyupF (c : KeyCode) (i : InputState) : InputState :=
  let i1 := { i with keys := setKey i.keys c false }
  if c = KeyCode.space then { i1 with jumpTriggered := true } else i1

/-- `Math.sign`. -/
def jsSign (x : ℝ) : ℝ :=
  if x < 0 then -1 else if 0 < x then 1 else 0

/-- The `wheel` handler: `zoomDelta += Math.sign(event.deltaY) * 0.5`. -/
def wheelF (deltaY : ℝ) (i : InputState) : InputState :=
  { i with zoomDelta := i.zoomDelta + jsSign deltaY * 0.5 }

/-- The `mousemove` handler; `locked` is the browser-owned pointer-lock status
at the moment of the event. -/
def mousemoveF (dx dy : ℝ) (locked : Bool) (i : InputState) : InputState :=
  if locked || i.mouseLeft then
    { i with mouseDeltaX := i.mouseDeltaX + dx, mouseDeltaY := i.mouseDeltaY + dy }
  else i

/-- The `mousedown` handler (clicks are only registered on the canvas). -/
def mousedownF (button : Nat) (onCanvas : Bool) (i : InputState) : InputState :=
  if onCanvas then
    if button = 0 then { i with mouseLeft := true }
    else if button = 1 then { i with mouseMiddle := true }
    else if button = 2 then { i with mouseRight := true }
    else i
  else i

/-- The `mouseup` handler (releases regardless of target). -/
def mouseupF (button : Nat) (i : InputState) : InputState :=
  if button = 0 then { i with mouseLeft := false }
  else if button = 1 then { i with mouseMiddle := false }
  else if button = 2 then { i with mouseRight := false }
  else i

/-- `InputManager.resetMouseDelta`. -/
def resetMouseDelta (i : InputState) : InputState :=
  { i with mouseDeltaX := 0, mouseDeltaY := 0, zoomDelta := 0 }

/-- `InputManager.isMoving`. -/
def InputState.isMoving (i : InputState) : Bool :=
  i.keys.keyW || i.keys.keyA || i.keys.keyS || i.keys.keyD

/-- `InputManager.isSprinting`. -/
def InputState.isSprinting (i : InputState) : Bool :=
  i.keys.shiftLeft || i.keys.shiftRight

/-! ## Animation system (THREE.AnimationAction state, as used here) -/

inductive LoopMode where
  | loopOnce
  | loopRepeat
deriving Repr, DecidableEq

/-- The slice of a `THREE.AnimationAction` that `PlayerController` touches,
with call counters for the mutating methods. -/
structure ActionState where
  fadeInCount : Nat
  fadeOutCount : Nat
  stopCount : Nat
  resetCount : Nat
  playing : Bool
  weight : ℝ
  loop : LoopMode
  clampWhenFinished : Bool

/-- `modelAnimations`: the immutable clip-name-to-action map plus the mutable
per-action states, actions identified by index. -/
structure AnimData where
  actions : String → Option Nat
  states : Nat → ActionState

def updState (d : AnimData) (i : Nat) (f : ActionState → ActionState) : AnimData :=
  { d with states := fun j => if j = i then f (d.states j) else d.states j }

/-! ## PlayerController -/

/-- The mutable state of `PlayerController` together with the player model's
transform fields it writes (orientation is only slerped and never read by any
other component, so it is left out). -/
structure PlayerCtrl where
  hvX : ℝ
  hvZ : ℝ
  isJumping : Bool
  velocityY : ℝ
  movementSpeed : ℝ
  posX : ℝ
  posY : ℝ
  posZ : ℝ
  modelAnimations : Option AnimData
  currentAnimation : Option Nat

/-- `this.hasFallAnimation` (constructor-computed; the `actions` key set never
changes, so recomputing it is equivalent). -/
def hasFallAnimation (p : PlayerCtrl) : Bool :=
  match p.modelAnimations with
  | none => false
  | some d => (d.actions FALL_NAME).isSome

/-- `this.hasLandAnimation`: `actions[undefined]` is `undefined`. -/
def hasLandAnimation (p : PlayerCtrl) : Bool :=
  match p.modelAnimations with
  | none => false
  | some d => (LAND_NAME.bind d.actions).isSome

/-- `PlayerController.switchAnimation`. -/
def switchAnimation (p : PlayerCtrl) (targetAnimName : String) (fadeDuration : ℝ) :
    PlayerCtrl :=
  match p.modelAnimations with
  | none => p
  | some d =>
    match d.actions targetAnimName with
    | none => p
    | some a =>
      if p.currentAnimation = some a then p
      else
        let d1 :=
          match p.currentAnimation with
          | none => d
          | some c =>
            if some c = LAND_NAME.bind d.actions then
              updState d c fun st => { st with stopCount := st.stopCount + 1, playing := false }
            else
              updState d c fun st => { st with fadeOutCount := st.fadeOutCount + 1 }
        let d2 := updState d1 a fun st =>
          { st with resetCount := st.resetCount + 1, weight := 1,
                    fadeInCount := st.fadeInCount + 1, playing := true }
        let d3 :=
          if LAND_NAME = some targetAnimName then
            updState d2 a fun st => { st with clampWhenFinished := true, loop := LoopMode.loopOnce }
          else
            updState d2 a fun st => { st with loop := LoopMode.loopRepeat }
        { p with modelAnimations := some d3, currentAnimation := some a }

/-- `switchAnimation` applied to a possibly-`undefined` name (used for the
`LAND` name); `actions[undefined]` is `undefined`, so the call returns. -/
def switchAnimationOpt (p : PlayerCtrl) (name : Option String) (fadeDuration : ℝ) :
    PlayerCtrl :=
  match name with
  | none => p
  | some n => switchAnimation p n fadeDuration

def fadeInCountOf (p : PlayerCtrl) (a : Nat) : Nat :=
  match p.modelAnimations with
  | none => 0
  | some d => (d.states a).fadeInCount

/-- `THREE.Vector3.normalize` restricted to the XZ plane
(`divideScalar(length() || 1)`: a zero-length vector is left unchanged). -/
def normalize2 (v : ℝ × ℝ) : ℝ × ℝ :=
  let l := Real.sqrt (v.1 ^ 2 + v.2 ^ 2)
  if l = 0 then v else (v.1 / l, v.2 / l)

/-- `PlayerController.calculateMovementDirection`.  `camFwd` is the camera's
world direction projected onto the XZ plane, i.e. its `(x, z)` components;
`camera.up` is the default `(0, 1, 0)`, so
`cross(up, f) = (f.z, 0, -f.x)` for `f` with zero y. -/
def calculateMovementDirection (camFwd : ℝ × ℝ) (i : InputState) : ℝ × ℝ :=
  let dz : ℝ := (if i.keys.keyW then 1 else 0) - (if i.keys.keyS then 1 else 0)
  let dx : ℝ := (if i.keys.keyA then 1 else 0) - (if i.keys.keyD then 1 else 0)
  if dx ^ 2 + dz ^ 2 = 0 then (0, 0)
  else
    let f := normalize2 camFwd
    let r := normalize2 (f.2, -f.1)
    normalize2 (f.1 * dz + r.1 * dx, f.2 * dz + r.2 * dx)

/-- The combined player-controller / input-manager state a
`PlayerController.update` call reads and writes. -/
def PState : Type := PlayerCtrl × InputState

/-- Horizontal-movement block of `PlayerController.update` (runs only while
not jumping). -/
def hPhase (camFwd : ℝ × ℝ) (i : InputState) (p : PlayerCtrl) : PlayerCtrl :=
  if p.isJumping then p
  else
    let speed := if i.isSprinting then RUN_SPEED else WALK_SPEED
    let d := calculateMovementDirection camFwd i
    { p with movementSpeed := speed, hvX := d.1 * speed, hvZ := d.2 * speed }

/-- Jump-trigger block of `PlayerController.update`. -/
def jPhase (p : PlayerCtrl) (i : InputState) : PlayerCtrl × InputState :=
  if i.jumpTriggered && !p.isJumping then
    let p1 := { p with isJumping := true,
                       velocityY := Real.sqrt (-2 * GRAVITY * JUMP_HEIGHT) }
    let p2 := switchAnimation p1 JUMP_NAME ANIM_FADE_DURATION
    (p2, { i with jumpTriggered := false })
  else (p, i)

/-- Physics block of `PlayerController.update`; the boolean is the local
`justLanded` flag. -/
def physPhase (dt : ℝ) (p : PlayerCtrl) : PlayerCtrl × Bool :=
  if p.isJumping then
    let vy := p.velocityY + GRAVITY * dt
    let y := p.posY + vy * dt
    let p1 := { p with velocityY := vy, posY := y }
    let p2 := if hasFallAnimation p1 ∧ vy ≤ 0 then
        switchAnimation p1 FALL_NAME ANIM_FADE_DURATION
      else p1
    if y ≤ 0 then
      ({ p2 with posY := 0, isJumping := false, velocityY := 0 }, true)
    else (p2, false)
  else (p, false)

/-- Horizontal position application of `PlayerController.update`. -/
def movePhase (dt : ℝ) (p : PlayerCtrl) : PlayerCtrl :=
  { p with posX := p.posX + p.hvX * dt, posZ := p.posZ + p.hvZ * dt }

def groundAnimName (i : InputState) : String :=
  if i.isMoving then (if i.isSprinting then RUN_NAME else WALK_NAME) else IDLE_NAME

def currentLoopIsRepeat (p : PlayerCtrl) : Bool :=
  match p.currentAnimation with
  | none => true
  | some c =>
    match p.modelAnimations with
    | none => true
    | some d => decide ((d.states c).loop = LoopMode.loopRepeat)

/-- Animation-selection block at the end of `PlayerController.update`. -/
def animPhase (i : InputState) (justLanded : Bool) (p : PlayerCtrl) : PlayerCtrl :=
  if justLanded then
    if hasLandAnimation p then switchAnimationOpt p LAND_NAME ANIM_FADE_DURATION
    else switchAnimation p (groundAnimName i) ANIM_FADE_DURATION
  else if !p.isJumping then
    if currentLoopIsRepeat p then switchAnimation p (groundAnimName i) ANIM_FADE_DURATION
    else p
  else p

/-- `PlayerController.update`, also exposing the local `justLanded` flag.
The rotation block only slerps the model's orientation quaternion, which no
modelled field reads, and is therefore omitted. -/
def updateFull (camFwd : ℝ × ℝ) (dt : ℝ) (s : PState) : PState × Bool :=
  let p1 := hPhase camFwd s.2 s.1
  let pi := jPhase p1 s.2
  let pb := physPhase dt pi.1
  let p4 := movePhase dt pb.1
  let p5 := animPhase s.2 pb.2 p4
  ((p5, pi.2), pb.2)

/-- `PlayerController.update`. -/
def update (camFwd : ℝ × ℝ) (dt : ℝ) (s : PState) : PState :=
  (updateFull camFwd dt s).1

/-- The `justLanded` flag of a given tick. -/
def justLandedOn (camFwd : ℝ × ℝ) (dt : ℝ) (s : PState) : Bool :=
  (updateFull camFwd dt s).2

/-- The player state right after the jump-trigger block of a tick (the state
whose `isJumping` the physics block tests). -/
def midPlayer (camFwd : ℝ × ℝ) (s : PState) : PlayerCtrl :=
  (jPhase (hPhase camFwd s.2 s.1) s.2).1

/-- A sequence of `PlayerController.update` ticks, each carrying its camera
forward direction and its `delta`. -/
def runPT (L : List ((ℝ × ℝ) × ℝ)) (s : PState) : PState :=
  L.foldl (fun t a => update a.1 a.2 t) s

/-! ## CameraController (the `CAMERA_CONFIG` revision) -/

/-- The mutable state of `CameraController` plus the camera position it
writes (`lookAt` only orients the camera, which no claim reads). -/
structure CameraCtrl where
  hasPlayer : Bool
  rotationAngle : ℝ
  zoomDistance : ℝ
  yOffset : ℝ
  camX : ℝ
  camY : ℝ
  camZ : ℝ

/-- `THREE.MathUtils.clamp`. -/
def clampR (v lo hi : ℝ) : ℝ := max lo (min hi v)

/-- `CameraController.update`; `px py pz` is the followed player's position. -/
def camUpdate (px py pz : ℝ) (s : CameraCtrl × InputState) : CameraCtrl × InputState :=
  let c := s.1
  let i := s.2
  if c.hasPlayer = false then s
  else
    let c1 :=
      if i.mouseRight || (i.mouseLeft && i.isCanvasActive) then
        { c with rotationAngle := c.rotationAngle - i.mouseDeltaX * SENSITIVITY_X }
      else c
    let c2 :=
      if i.mouseRight || (i.mouseLeft && i.isCanvasActive) then
        { c1 with yOffset := clampR (c1.yOffset + i.mouseDeltaY * SENSITIVITY_Y * 2)
                    PITCH_LIMIT_MIN_Y PITCH_LIMIT_MAX_Y }
      else c1
    let c3 :=
      if i.zoomDelta ≠ 0 then
        let zoomFactor := 1 + i.zoomDelta * ZOOM_SENSITIVITY
        let zd := c2.zoomDistance * zoomFactor
        let yo := c2.yOffset * zoomFactor
        { c2 with zoomDistance := max ZOOM_MIN (min ZOOM_MAX zd),
                  yOffset := clampR yo PITCH_LIMIT_MIN_Y PITCH_LIMIT_MAX_Y }
      else c2
    let c4 :=
      { c3 with camX := px + c3.zoomDistance * Real.sin c3.rotationAngle,
                camY := py + c3.yOffset,
                camZ := pz + c3.zoomDistance * Real.cos c3.rotationAngle }
    (c4, resetMouseDelta i)

/-- The camera's pitch angle `atan2(verticalOffset, zoomDistance)`; for the
reachable states the zoom distance is positive, where
`atan2(y, x) = arctan(y / x)`. -/
def pitch (c : CameraCtrl) : ℝ := Real.arctan (c.yOffset / c.zoomDistance)

/-! ## The whole system driven by device events and frame ticks -/

/-- One observable event of the system: a DOM input event, a
`PlayerController.update` tick or a `CameraController.update` tick.
Browser-owned data (pointer-lock status, whether the event targeted the
canvas, the camera forward direction) is carried by the event. -/
inductive Ev where
  | keydown (c : KeyCode)
  | keyup (c : KeyCode)
  | mousemove (dx dy : ℝ) (locked : Bool)
  | mousedown (button : Nat) (onCanvas : Bool)
  | mouseup (button : Nat)
  | wheel (deltaY : ℝ)
  | ptick (fx fz : ℝ) (dt : ℝ)
  | ctick

structure World where
  player : PlayerCtrl
  input : InputState
  camera : CameraCtrl

def step (e : Ev) (w : World) : World :=
  match e with
  | Ev.keydown c => { w with input := keydownF c w.input }
  | Ev.keyup c => { w with input := keyupF c w.input }
  | Ev.mousemove dx dy locked => { w with input := mousemoveF dx dy locked w.input }
  | Ev.mousedown b onCanvas => { w with input := mousedownF b onCanvas w.input }
  | Ev.mouseup b => { w with input := mouseupF b w.input }
  | Ev.wheel dy => { w with input := wheelF dy w.input }
  | Ev.ptick fx fz dt =>
    let r := update (fx, fz) dt (w.player, w.input)
    { w with player := r.1, input := r.2 }
  | Ev.ctick =>
    let r := camUpdate w.player.posX w.player.posY w.player.posZ (w.camera, w.input)
    { w with camera := r.1, input := r.2 }

def run (evs : List Ev) (w : World) : World :=
  evs.foldl (fun v e => step e v) w

def Ev.isPTick : Ev → Prop
  | Ev.ptick _ _ _ => True
  | _ => False

/-- The condition of the takeoff branch of `PlayerController.update`
(`jumpTriggered && !isJumping`), at a tick's entry state. -/
def TakeoffCond (w : World) : Prop :=
  w.input.jumpTriggered = true ∧ w.player.isJumping = false

/-- A jump begins on event `e` from world `w`. -/
def TakeoffAt (e : Ev) (w : World) : Prop :=
  e.isPTick ∧ TakeoffCond w

/-- The character is airborne during the physics block of tick `e` from `w`:
it either entered the tick airborne or took off during it. -/
def AirborneDuring (w : World) : Prop :=
  w.player.isJumping = true ∨ TakeoffCond w

/-- A landing occurs on event `e` from world `w`: the tick's physics block ran
airborne and the tick ends grounded. -/
def LandingAt (e : Ev) (w : World) : Prop :=
  e.isPTick ∧ AirborneDuring w ∧ (step e w).player.isJumping = false

/-! ## Shared example states (used by the concrete witnesses) -/

def idleKeys : Keys :=
  { keyW := false, keyA := false, keyS := false, keyD := false,
    shiftLeft := false, shiftRight := false, space := false }

/-- Input state with nothing held and no accumulated deltas. -/
def iEx0 : InputState :=
  { keys := idleKeys, jumpTriggered := false, mouseDeltaX := 0, mouseDeltaY := 0,
    zoomDelta := 0, isCanvasActive := false, mouseLeft := false, mouseMiddle := false,
    mouseRight := false }

/-- Input state with the jump trigger pending. -/
def iTrig : InputState := { iEx0 with jumpTriggered := true }

def defaultAction : ActionState :=
  { fadeInCount := 0, fadeOutCount := 0, stopCount := 0, resetCount := 0,
    playing := false, weight := 0, loop := LoopMode.loopRepeat, clampWhenFinished := false }

/-- The clip set of the demo model (no fall and no land clip). -/
def demoAnims : AnimData :=
  { actions := fun n =>
      if n = "stand" then some 0
      else if n = "walk" then some 1
      else if n = "run" then some 2
      else if n = "jumpUp" then some 3
      else none,
    states := fun _ => defaultAction }

/-- Grounded player at the origin with no animation data loaded. -/
def basePlayer : PlayerCtrl :=
  { hvX := 0, hvZ := 0, isJumping := false, velocityY := 0, movementSpeed := WALK_SPEED,
    posX := 0, posY := 0, posZ := 0, modelAnimations := none, currentAnimation := none }

/-- Grounded player with the demo clip set, idling. -/
def animPlayer : PlayerCtrl :=
  { basePlayer with modelAnimations := some demoAnims, currentAnimation := some 0 }

/-- Airborne player one unit above the ground. -/
def airPlayer : PlayerCtrl :=
  { basePlayer with isJumping := true, posY := 1, velocityY := 0 }

/-- Camera in its initial configuration, with a followed player. -/
def cEx : CameraCtrl :=
  { hasPlayer := true, rotationAngle := 0, zoomDistance := 6, yOffset := 6,
    camX := 0, camY := 0, camZ := 0 }

def w0 : World := { player := basePlayer, input := iTrig, camera := cEx }

/-! ## Helper lemmas: phases touch only the fields the source writes -/

theorem switchAnimation_hvX (p : PlayerCtrl) (t : String) (f : ℝ) :
    (switchAnimation p t f).hvX = p.hvX := by
  unfold switchAnimation; repeat' split
  all_goals rfl

theorem switchAnimation_hvZ (p : PlayerCtrl) (t : String) (f : ℝ) :
    (switchAnimation p t f).hvZ = p.hvZ := by
  unfold switchAnimation; repeat' split
  all_goals rfl

theorem switchAnimation_isJumping (p : PlayerCtrl) (t : String) (f : ℝ) :
    (switchAnimation p t f).isJumping = p.isJumping := by
  unfold switchAnimation; repeat' split
  all_goals rfl

theorem switchAnimation_velocityY (p : PlayerCtrl) (t : String) (f : ℝ) :
    (switchAnimation p t f).velocityY = p.velocityY := by
  unfold switchAnimation; repeat' split
  all_goals rfl

theorem switchAnimation_movementSpeed (p : PlayerCtrl) (t : String) (f : ℝ) :
    (switchAnimation p t f).movementSpeed = p.movementSpeed := by
  unfold switchAnimation; repeat' split
  all_goals rfl

theorem switchAnimation_posX (p : PlayerCtrl) (t : String) (f : ℝ) :
    (switchAnimation p t f).posX = p.posX := by
  unfold switchAnimation; repeat' split
  all_goals rfl

theorem switchAnimation_posY (p : PlayerCtrl) (t : String) (f : ℝ) :
    (switchAnimation p t f).posY = p.posY := by
  unfold switchAnimation; repeat' split
  all_goals rfl

theorem switchAnimation_posZ (p : PlayerCtrl) (t : String) (f : ℝ) :
    (switchAnimation p t f).posZ = p.posZ := by
  unfold switchAnimation; repeat' split
  all_goals rfl

attribute [simp] switchAnimation_hvX switchAnimation_hvZ switchAnimation_isJumping
  switchAnimation_velocityY switchAnimation_movementSpeed switchAnimation_posX
  switchAnimation_posY switchAnimation_posZ

@[simp]
theorem switchAnimationOpt_physFields (p : PlayerCtrl) (n : Option String) (f : ℝ) :
    (switchAnimationOpt p n f).hvX = p.hvX ∧ (switchAnimationOpt p n f).hvZ = p.hvZ ∧
    (switchAnimationOpt p n f).isJumping = p.isJumping ∧
    (switchAnimationOpt p n f).velocityY = p.velocityY ∧
    (switchAnimationOpt p n f).posY = p.posY := by
  cases n <;> simp [switchAnimationOpt]

@[simp]
theorem updState_actions (d : AnimData) (i : Nat) (f : ActionState → ActionState) :
    (updState d i f).actions = d.actions := rfl

theorem updState_states_self (d : AnimData) (i : Nat) (f : ActionState → ActionState) :
    (updState d i f).states i = f (d.states i) := by
  simp [updState]

theorem updState_states_ne (d : AnimData) (i j : Nat) (f : ActionState → ActionState)
    (h : j ≠ i) : (updState d i f).states j = d.states j := by
  simp [updState, h]

theorem switchAnimation_current_noop (p : PlayerCtrl) (X : String) (f : ℝ) (d : AnimData)
    (a : Nat) (hd : p.modelAnimations = some d) (ha : d.actions X = some a)
    (hc : p.currentAnimation = some a) : switchAnimation p X f = p := by
  simp [switchAnimation, hd, ha, hc]

/-! ## Claim theorems -/

/-- C8: for every animation state key with no backing clip in the loaded
actions map, and likewise when no animation data was loaded at all,
`switchAnimation` is a silent no-op: it returns leaving the current animation
and all controller state unchanged (the embedding is total, so no error is
raised). -/
theorem c8_switch_animation_missing_noop (p : PlayerCtrl) (name : String) (fade : ℝ)
    (h : p.modelAnimations = none ∨
      ∃ d, p.modelAnimations = some d ∧ d.actions name = none) :
    switchAnimation p name fade = p := by
  rcases h with h | ⟨d, hd, ha⟩
  · simp [switchAnimation, h]
  · simp [switchAnimation, hd, ha]

/-- Witness for C8: a key with no backing clip in the demo clip set, and a
controller with no animation data at all. -/
theorem c8_switch_animation_missing_noop_witness :
    switchAnimation animPlayer "land" 0.2 = animPlayer ∧
    switchAnimation basePlayer "walk" 0.2 = basePlayer := by
  constructor
  · exact c8_switch_animation_missing_noop animPlayer "land" 0.2
      (Or.inr ⟨demoAnims, rfl, rfl⟩)
  · exact c8_switch_animation_missing_noop basePlayer "walk" 0.2 (Or.inl rfl)

/-- C7: `switchAnimation` is idempotent in its target: for a state key whose
action exists, the second of two consecutive calls returns immediately
(the target action is already the current animation) and leaves the whole
controller state, the current-animation pointer included, untouched; across
the two calls the underlying action is faded in exactly once (given the
target was not already active, the situation the claim describes). -/
theorem c7_switch_animation_idempotent (p : PlayerCtrl) (X : String) (f1 f2 : ℝ)
    (d : AnimData) (a : Nat) (hd : p.modelAnimations = some d)
    (ha : d.actions X = some a) :
    switchAnimation (switchAnimation p X f1) X f2 = switchAnimation p X f1 ∧
    (switchAnimation p X f1).currentAnimation = some a ∧
    (p.currentAnimation ≠ some a →
      fadeInCountOf (switchAnimation (switchAnimation p X f1) X f2) a
        = fadeInCountOf p a + 1) := by
  by_cases hc : p.currentAnimation = some a
  · have h1 : switchAnimation p X f1 = p := switchAnimation_current_noop p X f1 d a hd ha hc
    rw [h1]
    exact ⟨switchAnimation_current_noop p X f2 d a hd ha hc, hc, fun h => absurd hc h⟩
  · rcases hcur : p.currentAnimation with _ | c
    · refine ⟨?_, ?_, fun _ => ?_⟩ <;>
        simp [switchAnimation, hd, ha, hcur, LAND_NAME, fadeInCountOf, updState]
    · have hca : c ≠ a := fun h => hc (by rw [hcur, h])
      refine ⟨?_, ?_, fun _ => ?_⟩ <;>
        simp [switchAnimation, hd, ha, hcur, hca, Ne.symm hca, LAND_NAME,
          fadeInCountOf, updState]

/-- Witness for C7: playing `walk` twice on the idling demo player fades the
walk action in exactly once and the second call is the identity. -/
theorem c7_switch_animation_idempotent_witness :
    switchAnimation (switchAnimation animPlayer "walk" 0.2) "walk" 0.2
      = switchAnimation animPlayer "walk" 0.2 ∧
    (switchAnimation animPlayer "walk" 0.2).currentAnimation = some 1 ∧
    fadeInCountOf (switchAnimation (switchAnimation animPlayer "walk" 0.2) "walk" 0.2) 1
      = fadeInCountOf animPlayer 1 + 1 := by
  have h := c7_switch_animation_idempotent animPlayer "walk" 0.2 0.2 demoAnims 1 rfl rfl
  exact ⟨h.1, h.2.1, h.2.2 (by simp [animPlayer, basePlayer])⟩

/-- C9: `resetMouseDelta` zeroes exactly `mouseDeltaX`, `mouseDeltaY` and
`zoomDelta` and changes no other field of the input state (held keys,
mouse-button state and `jumpTriggered` are untouched), and, whenever a
followed player is set, `CameraController.update` has exactly this reset
as its whole effect on the input state, performed as its final step. -/
theorem c9_reset_mouse_delta_exact (i : InputState) (px py pz : ℝ) (c : CameraCtrl)
    (hp : c.hasPlayer = true) :
    (resetMouseDelta i).mouseDeltaX = 0 ∧ (resetMouseDelta i).mouseDeltaY = 0 ∧
    (resetMouseDelta i).zoomDelta = 0 ∧ (resetMouseDelta i).keys = i.keys ∧
    (resetMouseDelta i).jumpTriggered = i.jumpTriggered ∧
    (resetMouseDelta i).isCanvasActive = i.isCanvasActive ∧
    (resetMouseDelta i).mouseLeft = i.mouseLeft ∧
    (resetMouseDelta i).mouseMiddle = i.mouseMiddle ∧
    (resetMouseDelta i).mouseRight = i.mouseRight ∧
    (camUpdate px py pz (c, i)).2 = resetMouseDelta i := by
  refine ⟨rfl, rfl, rfl, rfl, rfl, rfl, rfl, rfl, rfl, ?_⟩
  simp [camUpdate, hp]

/-- Witness for C9 at a concrete input state and camera. -/
theorem c9_reset_mouse_delta_exact_witness :
    (resetMouseDelta iTrig).mouseDeltaX = 0 ∧ (resetMouseDelta iTrig).mouseDeltaY = 0 ∧
    (resetMouseDelta iTrig).zoomDelta = 0 ∧ (resetMouseDelta iTrig).keys = iTrig.keys ∧
    (resetMouseDelta iTrig).jumpTriggered = iTrig.jumpTriggered ∧
    (resetMouseDelta iTrig).isCanvasActive = iTrig.isCanvasActive ∧
    (resetMouseDelta iTrig).mouseLeft = iTrig.mouseLeft ∧
    (resetMouseDelta iTrig).mouseMiddle = iTrig.mouseMiddle ∧
    (resetMouseDelta iTrig).mouseRight = iTrig.mouseRight ∧
    (camUpdate 0 0 0 (cEx, iTrig)).2 = resetMouseDelta iTrig :=
  c9_reset_mouse_delta_exact iTrig 0 0 0 cEx rfl

/-- C5 counterexample: with a followed player at the origin, yaw 0 and zoom 6,
and no input at all, the update places the camera at x-offset
`6 * sin 0 = 0` and z-offset `6 * cos 0 = 6`, not at the claimed
`(zoomDistance * cos yaw, _, zoomDistance * sin yaw)` which would be
`(6, _, 0)`. -/
theorem c5_camera_offset_counterexample :
    ¬ ((camUpdate 0 0 0 (cEx, iEx0)).1.camX
        = 0 + (camUpdate 0 0 0 (cEx, iEx0)).1.zoomDistance
            * Real.cos (camUpdate 0 0 0 (cEx, iEx0)).1.rotationAngle ∧
       (camUpdate 0 0 0 (cEx, iEx0)).1.camZ
        = 0 + (camUpdate 0 0 0 (cEx, iEx0)).1.zoomDistance
            * Real.sin (camUpdate 0 0 0 (cEx, iEx0)).1.rotationAngle) := by
  intro h
  have h1 := h.1
  norm_num [camUpdate, cEx, iEx0, Real.sin_zero, Real.cos_zero] at h1

/-- C5 (amended): on every `CameraController.update` with a followed player
set, the camera position is the player's position plus the offset
`(zoomDistance * sin yaw, verticalOffset, zoomDistance * cos yaw)` — i.e.
`sin(yaw)` scales the x component and `cos(yaw)` scales the z component
(the roles claimed for cos and sin are swapped in the code). -/
theorem c5_camera_offset_formula_amended (px py pz : ℝ) (c : CameraCtrl)
    (i : InputState) (hp : c.hasPlayer = true) :
    (camUpdate px py pz (c, i)).1.camX
      = px + (camUpdate px py pz (c, i)).1.zoomDistance
          * Real.sin (camUpdate px py pz (c, i)).1.rotationAngle ∧
    (camUpdate px py pz (c, i)).1.camY = py + (camUpdate px py pz (c, i)).1.yOffset ∧
    (camUpdate px py pz (c, i)).1.camZ
      = pz + (camUpdate px py pz (c, i)).1.zoomDistance
          * Real.cos (camUpdate px py pz (c, i)).1.rotationAngle := by
  simp [camUpdate, hp]

/-- Witness for C5 (amended) at the initial camera and empty input. -/
theorem c5_camera_offset_formula_amended_witness :
    (camUpdate 0 0 0 (cEx, iEx0)).1.camX
      = 0 + (camUpdate 0 0 0 (cEx, iEx0)).1.zoomDistance
          * Real.sin (camUpdate 0 0 0 (cEx, iEx0)).1.rotationAngle ∧
    (camUpdate 0 0 0 (cEx, iEx0)).1.camY = 0 + (camUpdate 0 0 0 (cEx, iEx0)).1.yOffset ∧
    (camUpdate 0 0 0 (cEx, iEx0)).1.camZ
      = 0 + (camUpdate 0 0 0 (cEx, iEx0)).1.zoomDistance
          * Real.cos (camUpdate 0 0 0 (cEx, iEx0)).1.rotationAngle :=
  c5_camera_offset_formula_amended 0 0 0 cEx iEx0 rfl

/-- C4 counterexample: a wheel-only update with zoom factor 2 from
`zoomDistance = 6, yOffset = 6` scales both to `(12, 12)` but the vertical
offset is then clamped to 8, so the pitch angle changes from `arctan 1` to
`arctan (8 / 12)`: the pitch is NOT preserved for every starting orbit
state. -/
theorem c4_pitch_zoom_counterexample :
    pitch (camUpdate 0 0 0 (cEx, { iEx0 with zoomDelta := 10 })).1 ≠ pitch cEx := by
  intro h
  have hz : pitch (camUpdate 0 0 0 (cEx, { iEx0 with zoomDelta := 10 })).1
      = Real.arctan (8 / 12) := by
    norm_num [camUpdate, cEx, iEx0, pitch, clampR, ZOOM_SENSITIVITY, ZOOM_MIN, ZOOM_MAX,
      PITCH_LIMIT_MIN_Y, PITCH_LIMIT_MAX_Y, min_def, max_def]
  have hc : pitch cEx = Real.arctan 1 := by
    norm_num [pitch, cEx]
  rw [hz, hc] at h
  have := Real.arctan_injective h
  norm_num at this

/-- C4 (amended): a zoom-only `CameraController.update` (wheel delta nonzero,
no mouse-rotation input) preserves the pitch angle
`atan2(verticalOffset, zoomDistance)` provided the proportionally scaled
`zoomDistance` and `verticalOffset` remain within their clamp ranges
`[ZOOM_MIN, ZOOM_MAX]` and `[PITCH_LIMIT_MIN_Y, PITCH_LIMIT_MAX_Y]`; when a
clamp binds, the pitch can change (see the counterexample). -/
theorem c4_pitch_zoom_invariant_amended (px py pz : ℝ) (c : CameraCtrl)
    (i : InputState) (hp : c.hasPlayer = true)
    (hrot : (i.mouseRight || (i.mouseLeft && i.isCanvasActive)) = false)
    (hz : i.zoomDelta ≠ 0)
    (h1 : ZOOM_MIN ≤ c.zoomDistance * (1 + i.zoomDelta * ZOOM_SENSITIVITY))
    (h2 : c.zoomDistance * (1 + i.zoomDelta * ZOOM_SENSITIVITY) ≤ ZOOM_MAX)
    (h3 : PITCH_LIMIT_MIN_Y ≤ c.yOffset * (1 + i.zoomDelta * ZOOM_SENSITIVITY))
    (h4 : c.yOffset * (1 + i.zoomDelta * ZOOM_SENSITIVITY) ≤ PITCH_LIMIT_MAX_Y) :
    pitch (camUpdate px py pz (c, i)).1 = pitch c := by
  have hf : (1 + i.zoomDelta * ZOOM_SENSITIVITY) ≠ 0 := by
    intro h0
    rw [h0, mul_zero] at h1
    norm_num [ZOOM_MIN] at h1
  have hmin : min ZOOM_MAX (c.zoomDistance * (1 + i.zoomDelta * ZOOM_SENSITIVITY))
      = c.zoomDistance * (1 + i.zoomDelta * ZOOM_SENSITIVITY) := min_eq_right h2
  have hmax : max ZOOM_MIN (c.zoomDistance * (1 + i.zoomDelta * ZOOM_SENSITIVITY))
      = c.zoomDistance * (1 + i.zoomDelta * ZOOM_SENSITIVITY) := by
    rw [hmin] at *
    exact max_eq_right h1
  have hymin : min PITCH_LIMIT_MAX_Y (c.yOffset * (1 + i.zoomDelta * ZOOM_SENSITIVITY))
      = c.yOffset * (1 + i.zoomDelta * ZOOM_SENSITIVITY) := min_eq_right h4
  have hymax : clampR (c.yOffset * (1 + i.zoomDelta * ZOOM_SENSITIVITY))
      PITCH_LIMIT_MIN_Y PITCH_LIMIT_MAX_Y
      = c.yOffset * (1 + i.zoomDelta * ZOOM_SENSITIVITY) := by
    rw [clampR, hymin]
    exact max_eq_right h3
  simp [camUpdate, hp, hrot, hz, pitch, hmin, hmax, hymax, mul_div_mul_right _ _ hf]

/-- Witness for C4 (amended): zoom factor 1/2 from the initial orbit state
keeps both scaled values inside the clamp ranges, so the pitch is unchanged. -/
theorem c4_pitch_zoom_invariant_amended_witness :
    pitch (camUpdate 0 0 0 (cEx, { iEx0 with zoomDelta := -5 })).1 = pitch cEx := by
  have h := c4_pitch_zoom_invariant_amended 0 0 0 cEx { iEx0 with zoomDelta := -5 }
    rfl rfl (by norm_num [iEx0])
    (by norm_num [cEx, ZOOM_MIN, ZOOM_SENSITIVITY])
    (by norm_num [cEx, ZOOM_MAX, ZOOM_SENSITIVITY])
    (by norm_num [cEx, PITCH_LIMIT_MIN_Y, ZOOM_SENSITIVITY])
    (by norm_num [cEx, PITCH_LIMIT_MAX_Y, ZOOM_SENSITIVITY])
  exact h

/-! ## Helper lemmas for the player tick -/

theorem hPhase_isJumping (f : ℝ × ℝ) (i : InputState) (p : PlayerCtrl) :
    (hPhase f i p).isJumping = p.isJumping := by
  unfold hPhase; split <;> rfl

theorem hPhase_velocityY (f : ℝ × ℝ) (i : InputState) (p : PlayerCtrl) :
    (hPhase f i p).velocityY = p.velocityY := by
  unfold hPhase; split <;> rfl

theorem hPhase_posY (f : ℝ × ℝ) (i : InputState) (p : PlayerCtrl) :
    (hPhase f i p).posY = p.posY := by
  unfold hPhase; split <;> rfl

theorem hPhase_modelAnimations (f : ℝ × ℝ) (i : InputState) (p : PlayerCtrl) :
    (hPhase f i p).modelAnimations = p.modelAnimations := by
  unfold hPhase; split <;> rfl

theorem hPhase_currentAnimation (f : ℝ × ℝ) (i : InputState) (p : PlayerCtrl) :
    (hPhase f i p).currentAnimation = p.currentAnimation := by
  unfold hPhase; split <;> rfl

attribute [simp] hPhase_isJumping hPhase_velocityY hPhase_posY hPhase_modelAnimations
  hPhase_currentAnimation

theorem hPhase_of_jumping (f : ℝ × ℝ) (i : InputState) (p : PlayerCtrl)
    (h : p.isJumping = true) : hPhase f i p = p := by
  unfold hPhase; simp [h]

@[simp]
theorem jPhase_fst_hvX (p : PlayerCtrl) (i : InputState) :
    (jPhase p i).1.hvX = p.hvX := by
  unfold jPhase; split <;> simp

@[simp]
theorem jPhase_fst_hvZ (p : PlayerCtrl) (i : InputState) :
    (jPhase p i).1.hvZ = p.hvZ := by
  unfold jPhase; split <;> simp

@[simp]
theorem jPhase_fst_posY (p : PlayerCtrl) (i : InputState) :
    (jPhase p i).1.posY = p.posY := by
  unfold jPhase; split <;> simp

theorem jPhase_of_jumping (p : PlayerCtrl) (i : InputState) (h : p.isJumping = true) :
    jPhase p i = (p, i) := by
  unfold jPhase; simp [h]

theorem jPhase_not_triggered (p : PlayerCtrl) (i : InputState)
    (h : i.jumpTriggered = false) : jPhase p i = (p, i) := by
  unfold jPhase; simp [h]

@[simp]
theorem physPhase_fst_hvX (dt : ℝ) (p : PlayerCtrl) :
    (physPhase dt p).1.hvX = p.hvX := by
  unfold physPhase
  split
  · dsimp only
    split_ifs <;> simp
  · rfl

@[simp]
theorem physPhase_fst_hvZ (dt : ℝ) (p : PlayerCtrl) :
    (physPhase dt p).1.hvZ = p.hvZ := by
  unfold physPhase
  split
  · dsimp only
    split_ifs <;> simp
  · rfl

theorem physPhase_of_grounded (dt : ℝ) (p : PlayerCtrl) (h : p.isJumping = false) :
    physPhase dt p = (p, false) := by
  unfold physPhase; simp [h]

@[simp]
theorem movePhase_hvX (dt : ℝ) (p : PlayerCtrl) : (movePhase dt p).hvX = p.hvX := rfl

@[simp]
theorem movePhase_hvZ (dt : ℝ) (p : PlayerCtrl) : (movePhase dt p).hvZ = p.hvZ := rfl

@[simp]
theorem movePhase_isJumping (dt : ℝ) (p : PlayerCtrl) :
    (movePhase dt p).isJumping = p.isJumping := rfl

@[simp]
theorem movePhase_velocityY (dt : ℝ) (p : PlayerCtrl) :
    (movePhase dt p).velocityY = p.velocityY := rfl

@[simp]
theorem movePhase_posY (dt : ℝ) (p : PlayerCtrl) : (movePhase dt p).posY = p.posY := rfl

@[simp]
theorem animPhase_hvX (i : InputState) (jl : Bool) (p : PlayerCtrl) :
    (animPhase i jl p).hvX = p.hvX := by
  unfold animPhase; repeat' split
  all_goals simp [switchAnimationOpt]
  all_goals cases LAND_NAME <;> simp [switchAnimationOpt]

@[simp]
theorem animPhase_hvZ (i : InputState) (jl : Bool) (p : PlayerCtrl) :
    (animPhase i jl p).hvZ = p.hvZ := by
  unfold animPhase; repeat' split
  all_goals simp [switchAnimationOpt]
  all_goals cases LAND_NAME <;> simp [switchAnimationOpt]

@[simp]
theorem animPhase_isJumping (i : InputState) (jl : Bool) (p : PlayerCtrl) :
    (animPhase i jl p).isJumping = p.isJumping := by
  unfold animPhase; repeat' split
  all_goals simp [switchAnimationOpt]
  all_goals cases LAND_NAME <;> simp [switchAnimationOpt]

@[simp]
theorem animPhase_velocityY (i : InputState) (jl : Bool) (p : PlayerCtrl) :
    (animPhase i jl p).velocityY = p.velocityY := by
  unfold animPhase; repeat' split
  all_goals simp [switchAnimationOpt]
  all_goals cases LAND_NAME <;> simp [switchAnimationOpt]

@[simp]
theorem animPhase_posY (i : InputState) (jl : Bool) (p : PlayerCtrl) :
    (animPhase i jl p).posY = p.posY := by
  unfold animPhase; repeat' split
  all_goals simp [switchAnimationOpt]
  all_goals cases LAND_NAME <;> simp [switchAnimationOpt]

/-- The player component of a tick, decomposed into the source's phases. -/
theorem update_player_eq (f : ℝ × ℝ) (dt : ℝ) (s : PState) :
    (update f dt s).1
      = animPhase s.2 (physPhase dt (midPlayer f s)).2
          (movePhase dt (physPhase dt (midPlayer f s)).1) := rfl

/-- The input component of a tick is written only by the jump-trigger block. -/
theorem update_input_eq (f : ℝ × ℝ) (dt : ℝ) (s : PState) :
    (update f dt s).2 = (jPhase (hPhase f s.2 s.1) s.2).2 := rfl

theorem justLandedOn_eq (f : ℝ × ℝ) (dt : ℝ) (s : PState) :
    justLandedOn f dt s = (physPhase dt (midPlayer f s)).2 := rfl

/-- The takeoff speed evaluates to 8.4 units per second. -/
theorem jump_speed_val : Real.sqrt (-2 * GRAVITY * JUMP_HEIGHT) = 8.4 := by
  have h : (-2 * GRAVITY * JUMP_HEIGHT : ℝ) = 8.4 ^ 2 := by
    norm_num [GRAVITY, JUMP_HEIGHT]
  rw [h, Real.sqrt_sq (by norm_num)]

theorem switchAnimation_current_found (p : PlayerCtrl) (t : String) (f : ℝ)
    (d : AnimData) (a : Nat) (hd : p.modelAnimations = some d)
    (ha : d.actions t = some a) :
    (switchAnimation p t f).currentAnimation = some a := by
  by_cases hc : p.currentAnimation = some a
  · rw [switchAnimation_current_noop p t f d a hd ha hc]; exact hc
  · simp [switchAnimation, hd, ha, hc]

theorem jPhase_fires (p : PlayerCtrl) (i : InputState) (ht : i.jumpTriggered = true)
    (hj : p.isJumping = false) :
    jPhase p i
      = (switchAnimation
          { p with isJumping := true,
                   velocityY := Real.sqrt (-2 * GRAVITY * JUMP_HEIGHT) }
          JUMP_NAME ANIM_FADE_DURATION,
         { i with jumpTriggered := false }) := by
  unfold jPhase; simp [ht, hj]

theorem physPhase_snd_iff (dt : ℝ) (p : PlayerCtrl) :
    (physPhase dt p).2 = true ↔
      (p.isJumping = true ∧ p.posY + (p.velocityY + GRAVITY * dt) * dt ≤ 0) := by
  unfold physPhase
  split
  · rename_i hj
    dsimp only
    split_ifs with h1 h2 h3 <;> simp_all
  · rename_i hj
    simp_all

theorem physPhase_landing (dt : ℝ) (p : PlayerCtrl) (h : (physPhase dt p).2 = true) :
    (physPhase dt p).1.posY = 0 ∧ (physPhase dt p).1.velocityY = 0 ∧
    (physPhase dt p).1.isJumping = false := by
  unfold physPhase at h ⊢
  split at h
  · dsimp only at h ⊢
    split_ifs at h ⊢ <;> simp_all
  · simp_all

theorem physPhase_not_landing_isJumping (dt : ℝ) (p : PlayerCtrl)
    (h : (physPhase dt p).2 = false) :
    (physPhase dt p).1.isJumping = p.isJumping := by
  unfold physPhase at h ⊢
  split at h
  · rename_i hj
    dsimp only at h ⊢
    split_ifs at h ⊢ <;> simp_all
  · rename_i hj
    simp [hj]

theorem update_hv_of_jumping (f : ℝ × ℝ) (dt : ℝ) (s : PState)
    (h : s.1.isJumping = true) :
    (update f dt s).1.hvX = s.1.hvX ∧ (update f dt s).1.hvZ = s.1.hvZ := by
  rw [update_player_eq]
  simp [midPlayer, hPhase_of_jumping _ _ _ h]

theorem update_trigger_of_jumping (f : ℝ × ℝ) (dt : ℝ) (s : PState)
    (h : s.1.isJumping = true) :
    (update f dt s).2.jumpTriggered = s.2.jumpTriggered := by
  rw [update_input_eq, hPhase_of_jumping _ _ _ h, jPhase_of_jumping _ _ h]

theorem runPT_cons (a : (ℝ × ℝ) × ℝ) (L : List ((ℝ × ℝ) × ℝ)) (s : PState) :
    runPT (a :: L) s = runPT L (update a.1 a.2 s) := by
  simp [runPT]

theorem runPT_hv_frozen (L : List ((ℝ × ℝ) × ℝ)) (s : PState) (k : Nat)
    (hk : k ≤ L.length)
    (hair : ∀ j, j < k → (runPT (List.take j L) s).1.isJumping = true) :
    (runPT (List.take k L) s).1.hvX = s.1.hvX ∧
    (runPT (List.take k L) s).1.hvZ = s.1.hvZ := by
  induction L generalizing s k with
  | nil => simp [runPT]
  | cons a L ih =>
    cases k with
    | zero => simp [runPT]
    | succ k =>
      have h0 : s.1.isJumping = true := by
        have h := hair 0 (Nat.succ_pos k)
        simpa [runPT] using h
      have hstep := update_hv_of_jumping a.1 a.2 s h0
      have hk2 : k ≤ L.length := Nat.succ_le_succ_iff.mp (by simpa using hk)
      have hair2 : ∀ j, j < k →
          (runPT (List.take j L) (update a.1 a.2 s)).1.isJumping = true := by
        intro j hj
        have h := hair (j + 1) (Nat.succ_lt_succ hj)
        rwa [List.take_succ_cons, runPT_cons] at h
      have hrest := ih (update a.1 a.2 s) k hk2 hair2
      rw [List.take_succ_cons, runPT_cons]
      exact ⟨hrest.1.trans hstep.1, hrest.2.trans hstep.2⟩

theorem runPT_trigger_kept (L : List ((ℝ × ℝ) × ℝ)) (s : PState) (k : Nat)
    (ht : s.2.jumpTriggered = true) (hk : k ≤ L.length)
    (hair : ∀ j, j < k → (runPT (List.take j L) s).1.isJumping = true) :
    (runPT (List.take k L) s).2.jumpTriggered = true := by
  induction L generalizing s k with
  | nil => simpa [runPT] using ht
  | cons a L ih =>
    cases k with
    | zero => simpa [runPT] using ht
    | succ k =>
      have h0 : s.1.isJumping = true := by
        have h := hair 0 (Nat.succ_pos k)
        simpa [runPT] using h
      have ht2 : (update a.1 a.2 s).2.jumpTriggered = true :=
        (update_trigger_of_jumping a.1 a.2 s h0).trans ht
      have hk2 : k ≤ L.length := Nat.succ_le_succ_iff.mp (by simpa using hk)
      have hair2 : ∀ j, j < k →
          (runPT (List.take j L) (update a.1 a.2 s)).1.isJumping = true := by
        intro j hj
        have h := hair (j + 1) (Nat.succ_lt_succ hj)
        rwa [List.take_succ_cons, runPT_cons] at h
      rw [List.take_succ_cons, runPT_cons]
      exact ih (update a.1 a.2 s) k ht2 hk2 hair2

/-- C2: whenever `PlayerController.update` consumes the jump trigger while not
already airborne, the jump-trigger block sets the vertical velocity to exactly
`sqrt(2 * |gravity| * jumpHeight)`, transitions the state to airborne, clears
the trigger (both at the block and for the whole tick), and plays the Jump
animation state (the Jump action becomes the current animation whenever it
exists in the loaded actions map). -/
theorem c2_jump_takeoff_contract (camFwd : ℝ × ℝ) (s : PState)
    (ht : s.2.jumpTriggered = true) (hj : s.1.isJumping = false) :
    (midPlayer camFwd s).velocityY = Real.sqrt (2 * |GRAVITY| * JUMP_HEIGHT) ∧
    (midPlayer camFwd s).isJumping = true ∧
    (jPhase (hPhase camFwd s.2 s.1) s.2).2.jumpTriggered = false ∧
    (∀ d a, s.1.modelAnimations = some d → d.actions JUMP_NAME = some a →
      (midPlayer camFwd s).currentAnimation = some a) ∧
    (∀ dt, (update camFwd dt s).2.jumpTriggered = false) := by
  have habs : (-2 * GRAVITY * JUMP_HEIGHT : ℝ) = 2 * |GRAVITY| * JUMP_HEIGHT := by
    have hg : |GRAVITY| = (19.6 : ℝ) := by
      rw [GRAVITY, abs_of_neg (by norm_num)]
      norm_num
    rw [hg, GRAVITY, JUMP_HEIGHT]
    norm_num
  have hj2 : (hPhase camFwd s.2 s.1).isJumping = false := by
    rw [hPhase_isJumping]; exact hj
  have hfire := jPhase_fires (hPhase camFwd s.2 s.1) s.2 ht hj2
  refine ⟨?_, ?_, ?_, ?_, ?_⟩
  · rw [midPlayer, hfire]
    simp only [switchAnimation_velocityY]
    rw [habs]
  · rw [midPlayer, hfire]
    simp
  · rw [hfire]
  · intro d a hd ha
    rw [midPlayer, hfire]
    dsimp only
    exact switchAnimation_current_found _ _ _ d a
      (by simp [hPhase_modelAnimations, hd]) ha
  · intro dt
    rw [update_input_eq, hfire]

/-- Witness for C2 on the grounded demo player with a pending jump trigger. -/
theorem c2_jump_takeoff_contract_witness :
    (midPlayer (1, 0) (animPlayer, iTrig)).velocityY
      = Real.sqrt (2 * |GRAVITY| * JUMP_HEIGHT) ∧
    (midPlayer (1, 0) (animPlayer, iTrig)).isJumping = true ∧
    (jPhase (hPhase (1, 0) iTrig animPlayer) iTrig).2.jumpTriggered = false ∧
    (midPlayer (1, 0) (animPlayer, iTrig)).currentAnimation = some 3 ∧
    (update (1, 0) 0 (animPlayer, iTrig)).2.jumpTriggered = false := by
  have h := c2_jump_takeoff_contract (1, 0) (animPlayer, iTrig) rfl rfl
  exact ⟨h.1, h.2.1, h.2.2.1, h.2.2.2.1 demoAnims 3 rfl rfl, h.2.2.2.2 0⟩

/-- On a tick with `delta = 1` from the grounded origin with the trigger
pending, takeoff and landing happen on the same tick. -/
theorem land_tick_justLanded : justLandedOn (1, 0) 1 (basePlayer, iTrig) = true := by
  rw [justLandedOn_eq, physPhase_snd_iff]
  constructor
  · rw [midPlayer, jPhase_fires _ _ rfl rfl]
    simp
  · rw [midPlayer, jPhase_fires _ _ rfl rfl]
    simp only [switchAnimation_posY, switchAnimation_velocityY]
    rw [jump_speed_val, hPhase_posY]
    norm_num [basePlayer, GRAVITY]

theorem land_tick_grounded :
    (update (1, 0) 1 (basePlayer, iTrig)).1.isJumping = false := by
  have h := physPhase_landing 1 (midPlayer (1, 0) (basePlayer, iTrig)) land_tick_justLanded
  rw [update_player_eq]
  simpa using h.2.2

/-- C3 counterexample: on a tick with `delta = 1` that starts grounded at
`y = 0` with the jump trigger pending, the takeoff and the landing happen on
the same tick, so landing is detected on a tick that did NOT start with
`y > 0` — refuting the claimed "exactly when ... having started the tick with
`y > 0`". -/
theorem c3_landing_counterexample :
    justLandedOn (1, 0) 1 (basePlayer, iTrig) = true ∧
    ¬ (0 < (basePlayer, iTrig).1.posY) := by
  refine ⟨land_tick_justLanded, ?_⟩
  norm_num [basePlayer]

/-- C3 (amended): on every tick, landing is detected exactly when the physics
block runs airborne (the tick entered airborne or took off during it — on a
same-tick takeoff the starting height is 0, not positive) and the position
update `y += vy * dt` leaves `y ≤ 0`; on that tick `y` is set to exactly 0,
the vertical velocity to exactly 0 and the state returns to grounded, and a
grounded transition occurs on no other tick. -/
theorem c3_landing_detection_amended (camFwd : ℝ × ℝ) (dt : ℝ) (s : PState) :
    (justLandedOn camFwd dt s = true ↔
      ((midPlayer camFwd s).isJumping = true ∧
        (midPlayer camFwd s).posY
          + ((midPlayer camFwd s).velocityY + GRAVITY * dt) * dt ≤ 0)) ∧
    (justLandedOn camFwd dt s = true →
      (update camFwd dt s).1.posY = 0 ∧ (update camFwd dt s).1.velocityY = 0 ∧
      (update camFwd dt s).1.isJumping = false) ∧
    ((midPlayer camFwd s).isJumping = true →
      (update camFwd dt s).1.isJumping = false →
      justLandedOn camFwd dt s = true) := by
  refine ⟨physPhase_snd_iff dt (midPlayer camFwd s), fun h => ?_, fun hj hg => ?_⟩
  · have hl := physPhase_landing dt (midPlayer camFwd s) h
    rw [update_player_eq]
    simpa using hl
  · by_contra hnl
    rw [justLandedOn_eq] at hnl
    have hnl2 : (physPhase dt (midPlayer camFwd s)).2 = false := by
      cases h2 : (physPhase dt (midPlayer camFwd s)).2
      · rfl
      · exact absurd h2 hnl
    have hkeep := physPhase_not_landing_isJumping dt (midPlayer camFwd s) hnl2
    rw [update_player_eq] at hg
    simp only [animPhase_isJumping, movePhase_isJumping] at hg
    rw [hkeep, hj] at hg
    exact absurd hg (by simp)

/-- Witness for C3 (amended) on the same-tick takeoff-and-landing scenario. -/
theorem c3_landing_detection_amended_witness :
    (update (1, 0) 1 (basePlayer, iTrig)).1.posY = 0 ∧
    (update (1, 0) 1 (basePlayer, iTrig)).1.velocityY = 0 ∧
    (update (1, 0) 1 (basePlayer, iTrig)).1.isJumping = false ∧
    justLandedOn (1, 0) 1 (basePlayer, iTrig) = true := by
  have h := c3_landing_detection_amended (1, 0) 1 (basePlayer, iTrig)
  have h2 := h.2.1 land_tick_justLanded
  have hmid : (midPlayer (1, 0) (basePlayer, iTrig)).isJumping = true := by
    rw [midPlayer, jPhase_fires _ _ rfl rfl]
    simp
  exact ⟨h2.1, h2.2.1, h2.2.2, h.2.2 hmid h2.2.2⟩

/-- A zero-delta tick on an airborne player one unit above ground changes
nothing. -/
theorem air_tick_stays : update (1, 0) 0 (airPlayer, iEx0) = (airPlayer, iEx0) := by
  norm_num [update, updateFull, hPhase, jPhase, physPhase, movePhase, animPhase,
    hasFallAnimation, airPlayer, basePlayer, iEx0, idleKeys]

/-- C1: while airborne the horizontal velocity is never recomputed from input:
every airborne-entry tick (the landing tick included) leaves it bit-identical,
so across any tick sequence whose entry states are airborne it keeps the value
it had when the jump began; while grounded it is recomputed from input every
tick as `direction * (run or walk speed)`. -/
theorem c1_airborne_velocity_frozen :
    (∀ (camFwd : ℝ × ℝ) (dt : ℝ) (s : PState), s.1.isJumping = true →
      (update camFwd dt s).1.hvX = s.1.hvX ∧ (update camFwd dt s).1.hvZ = s.1.hvZ) ∧
    (∀ (camFwd : ℝ × ℝ) (dt : ℝ) (s : PState), s.1.isJumping = false →
      (update camFwd dt s).1.hvX
        = (calculateMovementDirection camFwd s.2).1
            * (if s.2.isSprinting then RUN_SPEED else WALK_SPEED) ∧
      (update camFwd dt s).1.hvZ
        = (calculateMovementDirection camFwd s.2).2
            * (if s.2.isSprinting then RUN_SPEED else WALK_SPEED)) ∧
    (∀ (L : List ((ℝ × ℝ) × ℝ)) (s : PState) (k : Nat), k ≤ L.length →
      (∀ j, j < k → (runPT (List.take j L) s).1.isJumping = true) →
      (runPT (List.take k L) s).1.hvX = s.1.hvX ∧
      (runPT (List.take k L) s).1.hvZ = s.1.hvZ) := by
  refine ⟨update_hv_of_jumping, ?_, runPT_hv_frozen⟩
  intro camFwd dt s h
  rw [update_player_eq]
  simp only [animPhase_hvX, animPhase_hvZ, movePhase_hvX, movePhase_hvZ,
    physPhase_fst_hvX, physPhase_fst_hvZ, midPlayer, jPhase_fst_hvX, jPhase_fst_hvZ]
  rw [hPhase]
  simp [h]

/-- Witness for C1: a frozen airborne tick, a grounded recomputation tick, and
a two-tick airborne run keeping the takeoff value. -/
theorem c1_airborne_velocity_frozen_witness :
    ((update (1, 0) 0 (airPlayer, iEx0)).1.hvX = (airPlayer, iEx0).1.hvX ∧
      (update (1, 0) 0 (airPlayer, iEx0)).1.hvZ = (airPlayer, iEx0).1.hvZ) ∧
    ((update (1, 0) 0 (basePlayer, iEx0)).1.hvX
        = (calculateMovementDirection (1, 0) iEx0).1
            * (if InputState.isSprinting iEx0 then RUN_SPEED else WALK_SPEED) ∧
      (update (1, 0) 0 (basePlayer, iEx0)).1.hvZ
        = (calculateMovementDirection (1, 0) iEx0).2
            * (if InputState.isSprinting iEx0 then RUN_SPEED else WALK_SPEED)) ∧
    ((runPT (List.take 2 [((1, 0), 0), ((1, 0), 0)]) (airPlayer, iEx0)).1.hvX
        = (airPlayer, iEx0).1.hvX ∧
      (runPT (List.take 2 [((1, 0), 0), ((1, 0), 0)]) (airPlayer, iEx0)).1.hvZ
        = (airPlayer, iEx0).1.hvZ) := by
  have h := c1_airborne_velocity_frozen
  refine ⟨h.1 (1, 0) 0 (airPlayer, iEx0) rfl, h.2.1 (1, 0) 0 (basePlayer, iEx0) rfl,
    h.2.2 [((1, 0), 0), ((1, 0), 0)] (airPlayer, iEx0) 2 (by norm_num) ?_⟩
  intro j hj
  interval_cases j
  · rfl
  · show (update (1, 0) 0 (airPlayer, iEx0)).1.isJumping = true
    rw [air_tick_stays]
    rfl

/-! ## World-level lemmas for the temporal claims -/

theorem run_cons (e : Ev) (L : List Ev) (w : World) :
    run (e :: L) w = run L (step e w) := rfl

theorem camUpdate_snd_trigger (px py pz : ℝ) (c : CameraCtrl) (i : InputState) :
    (camUpdate px py pz (c, i)).2.jumpTriggered = i.jumpTriggered := by
  unfold camUpdate
  dsimp only
  split <;> rfl

theorem mousemoveF_trigger (dx dy : ℝ) (locked : Bool) (i : InputState) :
    (mousemoveF dx dy locked i).jumpTriggered = i.jumpTriggered := by
  unfold mousemoveF
  split <;> rfl

theorem mousedownF_trigger (b : Nat) (onCanvas : Bool) (i : InputState) :
    (mousedownF b onCanvas i).jumpTriggered = i.jumpTriggered := by
  unfold mousedownF
  split_ifs <;> rfl

theorem mouseupF_trigger (b : Nat) (i : InputState) :
    (mouseupF b i).jumpTriggered = i.jumpTriggered := by
  unfold mouseupF
  split_ifs <;> rfl

theorem update_trigger_true (f : ℝ × ℝ) (dt : ℝ) (s : PState)
    (h : (update f dt s).2.jumpTriggered = true) : s.2.jumpTriggered = true := by
  cases hc : s.2.jumpTriggered with
  | true => rfl
  | false =>
    rw [update_input_eq, jPhase_not_triggered _ _ hc] at h
    dsimp only at h
    rw [hc] at h
    exact h

theorem trigger_only_keyup_space (e : Ev) (w : World)
    (h : (step e w).input.jumpTriggered = true) :
    w.input.jumpTriggered = true ∨ e = Ev.keyup KeyCode.space := by
  cases e with
  | keydown c => exact Or.inl h
  | keyup c =>
    by_cases hs : c = KeyCode.space
    · exact Or.inr (by rw [hs])
    · refine Or.inl ?_
      simpa [step, keyupF, hs] using h
  | mousemove dx dy locked =>
    exact Or.inl (by rwa [show (step (Ev.mousemove dx dy locked) w).input
      = mousemoveF dx dy locked w.input from rfl, mousemoveF_trigger] at h)
  | mousedown b onCanvas =>
    exact Or.inl (by rwa [show (step (Ev.mousedown b onCanvas) w).input
      = mousedownF b onCanvas w.input from rfl, mousedownF_trigger] at h)
  | mouseup b =>
    exact Or.inl (by rwa [show (step (Ev.mouseup b) w).input
      = mouseupF b w.input from rfl, mouseupF_trigger] at h)
  | wheel dy => exact Or.inl h
  | ptick fx fz dt =>
    exact Or.inl (update_trigger_true (fx, fz) dt (w.player, w.input) h)
  | ctick =>
    exact Or.inl (by rwa [show (step Ev.ctick w).input
      = (camUpdate w.player.posX w.player.posY w.player.posZ (w.camera, w.input)).2
      from rfl, camUpdate_snd_trigger] at h)

/-- A step from an airborne world either stays airborne or is a landing tick. -/
theorem stepAirborne (e : Ev) (w : World) (h : w.player.isJumping = true) :
    (step e w).player.isJumping = true ∨ LandingAt e w := by
  cases e with
  | ptick fx fz dt =>
    by_cases h2 : (step (Ev.ptick fx fz dt) w).player.isJumping = true
    · exact Or.inl h2
    · refine Or.inr ⟨trivial, Or.inl h, ?_⟩
      cases h3 : (step (Ev.ptick fx fz dt) w).player.isJumping
      · rfl
      · exact absurd h3 h2
  | keydown c => exact Or.inl h
  | keyup c => exact Or.inl h
  | mousemove dx dy locked => exact Or.inl h
  | mousedown b onCanvas => exact Or.inl h
  | mouseup b => exact Or.inl h
  | wheel dy => exact Or.inl h
  | ctick => exact Or.inl h

/-- From an airborne world, no takeoff can occur until a landing tick has
occurred. -/
theorem noTakeoffWhileAirborne (mid : List Ev) :
    ∀ (w : World), w.player.isJumping = true →
    ∀ e2, TakeoffAt e2 (run mid w) →
    ∃ m1 e m2, mid = m1 ++ e :: m2 ∧ LandingAt e (run m1 w) := by
  induction mid with
  | nil =>
    intro w hw e2 h2
    exact absurd h2.2.2 (by simp [run, hw])
  | cons e rest ih =>
    intro w hw e2 h2
    rcases stepAirborne e w hw with h3 | h3
    · rw [run_cons] at h2
      obtain ⟨m1, e4, m2, hm, hl⟩ := ih (step e w) h3 e2 h2
      refine ⟨e :: m1, e4, m2, by simp [hm], ?_⟩
      rwa [run_cons]
    · exact ⟨[], e, rest, rfl, h3⟩

/-- C6: a jump fires only on the jump key's release edge: across all modelled
device events and controller ticks, the jump trigger can only become set by
the Space `keyup` handler; and in every event sequence, once a jump has begun
no second takeoff can occur until a landing has occurred (the takeoff tick
itself may land on a large delta). -/
theorem c6_jump_edge_no_double_jump :
    (∀ (e : Ev) (w : World), (step e w).input.jumpTriggered = true →
      w.input.jumpTriggered = true ∨ e = Ev.keyup KeyCode.space) ∧
    (∀ (w : World) (pre mid : List Ev) (e1 e2 : Ev),
      TakeoffAt e1 (run pre w) →
      TakeoffAt e2 (run mid (step e1 (run pre w))) →
      LandingAt e1 (run pre w) ∨
        ∃ m1 e m2, mid = m1 ++ e :: m2 ∧
          LandingAt e (run m1 (step e1 (run pre w)))) := by
  refine ⟨trigger_only_keyup_space, ?_⟩
  intro w pre mid e1 e2 h1 h2
  by_cases hj : (step e1 (run pre w)).player.isJumping = true
  · exact Or.inr (noTakeoffWhileAirborne mid (step e1 (run pre w)) hj e2 h2)
  · refine Or.inl ⟨h1.1, Or.inr h1.2, ?_⟩
    cases h3 : (step e1 (run pre w)).player.isJumping
    · rfl
    · exact absurd h3 hj

/-- Witness for C6: a Space release sets the trigger; a takeoff tick with
`delta = 1` that lands on the same tick, a Space release, and a second takeoff
satisfy the no-double-jump conclusion. -/
theorem c6_jump_edge_no_double_jump_witness :
    (w0.input.jumpTriggered = true ∨ Ev.keyup KeyCode.space = Ev.keyup KeyCode.space) ∧
    (LandingAt (Ev.ptick 1 0 1) (run [] w0) ∨
      ∃ m1 e m2, [Ev.keyup KeyCode.space] = m1 ++ e :: m2 ∧
        LandingAt e (run m1 (step (Ev.ptick 1 0 1) (run [] w0)))) := by
  constructor
  · exact c6_jump_edge_no_double_jump.1 (Ev.keyup KeyCode.space) w0 rfl
  · refine c6_jump_edge_no_double_jump.2 w0 [] [Ev.keyup KeyCode.space]
      (Ev.ptick 1 0 1) (Ev.ptick 1 0 1) ⟨trivial, rfl, rfl⟩ ⟨trivial, rfl, ?_⟩
    show (update (1, 0) 1 (basePlayer, iTrig)).1.isJumping = false
    exact land_tick_grounded

/-- C10: a jump trigger set while the character is airborne is neither
consumed nor cleared: it stays set across every tick whose entry state is
airborne; and on the first tick entered grounded with the trigger still set,
the tick's jump block fires (the state becomes airborne with the takeoff
vertical speed) and the trigger is consumed. -/
theorem c10_buffered_jump_on_landing :
    (∀ (L : List ((ℝ × ℝ) × ℝ)) (s : PState) (k : Nat),
      s.2.jumpTriggered = true → k ≤ L.length →
      (∀ j, j < k → (runPT (List.take j L) s).1.isJumping = true) →
      (runPT (List.take k L) s).2.jumpTriggered = true) ∧
    (∀ (camFwd : ℝ × ℝ) (dt : ℝ) (s : PState),
      s.2.jumpTriggered = true → s.1.isJumping = false →
      (midPlayer camFwd s).isJumping = true ∧
      (midPlayer camFwd s).velocityY = Real.sqrt (-2 * GRAVITY * JUMP_HEIGHT) ∧
      (update camFwd dt s).2.jumpTriggered = false) := by
  refine ⟨fun L s k ht hk hair => runPT_trigger_kept L s k ht hk hair, ?_⟩
  intro camFwd dt s ht hj
  have hj2 : (hPhase camFwd s.2 s.1).isJumping = false := by
    rw [hPhase_isJumping]; exact hj
  have hfire := jPhase_fires (hPhase camFwd s.2 s.1) s.2 ht hj2
  refine ⟨?_, ?_, ?_⟩
  · rw [midPlayer, hfire]
    simp
  · rw [midPlayer, hfire]
    simp
  · rw [update_input_eq, hfire]

/-- Witness for C10: the trigger survives an airborne tick and a grounded
state with a pending trigger takes off, consuming it. -/
theorem c10_buffered_jump_on_landing_witness :
    (runPT (List.take 1 [((1, 0), 0)]) (airPlayer, iTrig)).2.jumpTriggered = true ∧
    (midPlayer (1, 0) (basePlayer, iTrig)).isJumping = true ∧
    (midPlayer (1, 0) (basePlayer, iTrig)).velocityY
      = Real.sqrt (-2 * GRAVITY * JUMP_HEIGHT) ∧
    (update (1, 0) 0 (basePlayer, iTrig)).2.jumpTriggered = false := by
  have h2 := c10_buffered_jump_on_landing.2 (1, 0) 0 (basePlayer, iTrig) rfl rfl
  refine ⟨c10_buffered_jump_on_landing.1 [((1, 0), 0)] (airPlayer, iTrig) 1 rfl
    (by norm_num) ?_, h2.1, h2.2.1, h2.2.2⟩
  intro j hj
  interval_cases j
  rfl

end TPS
